import Mathlib

/-!
Verification development for the playwrighty crawler.

The Lean definitions below are a shallow embedding of the crawl
orchestration core:

* the flat orchestrator `crawlSite` (src/crawler: `enqueue`, the worker
  loop, the canonical-alias map) is embedded as a small-step system over
  `FlatState`, with the three `p-limit(3)` workers made explicit and the
  atomic segments between `await` points taken as the steps;
* the adaptive state machine (src/agent: `state.js`, `nodes.js`,
  `crawlAgent.js`) is embedded as pure node functions returning partial
  updates, a merge function implementing the per-field reducers of
  `AgentState`, and a driver loop mirroring the compiled LangGraph;
* admission control (src/crawler/discovery.js `getRobotsPolicy`) and the
  output-publication skeleton (temp dir build + atomic rename) are
  embedded directly.

URL parsing internals (`normalizeUrl`, `sameOrigin`, `isHttpUrl` from
src/core/url.js, and the robots-parser library) are kept abstract as
function parameters of the environment: none of the properties proved
here depends on their internals.
-/

namespace Playwrighty

/-- Whether `pat` is a prefix of `s`, on character lists. -/
def charsStart : List Char → List Char → Bool
  | _, [] => true
  | [], _ :: _ => false
  | c :: cs, p :: ps => c = p && charsStart cs ps

/-- Whether `pat` occurs inside `s`, on character lists. -/
def charsContain : List Char → List Char → Bool
  | [], pat => pat.isEmpty
  | c :: cs, pat => charsStart (c :: cs) pat || charsContain cs pat

/-- Substring test used for the bot-challenge classification in
`crawlNode` (`error.message.includes(...)` in the source). -/
def strContains (s pat : String) : Bool :=
  charsContain s.data pat.data

/-- A frontier item as created by `enqueue`: the canonical URL plus the
provenance string. -/
structure Item where
  url : String
  source : String
deriving DecidableEq, Repr

/-- Result of one `backend.visitAndExtract` call, per the fetch
collaborator contract. `finalUrl := none` models a falsy finalUrl, which
the callers replace with the requested URL. -/
structure PageResult where
  status : Option Nat
  finalUrl : Option String
  title : String
  metaDescription : String
  h1 : List String
  fullText : String
  links : List String
  images : List String
  screenshotPath : Option String
deriving DecidableEq, Repr

/-- Association-list lookup, modelling `Map.get` / `Map.has` on a JS
`Map` keyed by strings. -/
def mapLookup {α : Type} : List (String × α) → String → Option α
  | [], _ => none
  | (k, v) :: rest, k' => if k = k' then some v else mapLookup rest k'

/-- Association-list update, modelling `Map.set`: replace the binding if
the key is present, else append it. -/
def mapSet {α : Type} : List (String × α) → String → α → List (String × α)
  | [], k, v => [(k, v)]
  | (k0, v0) :: rest, k, v =>
    if k0 = k then (k, v) :: rest else (k0, v0) :: mapSet rest k v

/-- `Set.add` on a JS `Set` of strings (insertion order preserved). -/
def setAdd (s : List String) (x : String) : List String :=
  if x ∈ s then s else s ++ [x]

/-! ## Flat orchestrator (`crawlSite`, src crawler module part_002) -/

/-- The stored page record built at lines 119-131 of the worker. -/
structure PageRec where
  url : String
  finalUrl : String
  status : Option Nat
  title : String
  metaDescription : String
  h1 : List String
  fullText : String
  links : List String
  images : List String
  screenshotPath : Option String
  discoveredFrom : String
deriving DecidableEq, Repr

/-- The run environment of `crawlSite`: configuration plus the external
collaborators (URL policy functions, robots policy, fetch backend). The
backend is modelled as a deterministic oracle from URL to extraction
result; each URL is dispatched at most once, so determinism loses no
generality. -/
structure FlatEnv where
  startUrl : String
  scope : String
  targetUrls : List String
  maxPages : Nat
  sitemapUrls : List String
  fetchSitemapUrls : String → List String
  normalizeUrl : String → String
  isHttpUrl : String → Bool
  sameOrigin : String → String → Bool
  canFetch : String → Bool
  visitAndExtract : String → PageResult

/-- Status of one of the three concurrent workers: before the next
loop-condition check, suspended in `visitAndExtract`, or terminated. -/
inductive WStatus
  | idle
  | fetching (item : Item)
  | done
deriving DecidableEq, Repr

/-- The mutable state shared by the workers of `crawlSite`:
`pages` (Map canonical URL to record), `canonicalByRequested`
(requested-to-canonical alias Map), `queue` (the frontier array),
`queued` (the Set of URLs ever enqueued), plus the worker statuses. -/
structure FlatState where
  pages : List (String × PageRec)
  canonicalByRequested : List (String × String)
  queue : List Item
  queued : List String
  workers : List WStatus
deriving Repr

/-- `enqueue(u, source)` of `crawlSite` (part_002 lines 54-66),
translated check for check in source order. -/
def enqueue (env : FlatEnv) (st : FlatState) (u source : String) : FlatState :=
  if !env.isHttpUrl u then st
  else
    let nu := env.normalizeUrl u
    if !env.sameOrigin nu env.startUrl then st
    else if nu ∈ st.queued then st
    else if (mapLookup st.canonicalByRequested nu).isSome then st
    else if st.pages.length + st.queue.length ≥ env.maxPages then st
    else if !env.canFetch nu then st
    else { st with queued := setAdd st.queued nu, queue := st.queue ++ [⟨nu, source⟩] }

/-- Modelled from the spec: the enqueue gating of section 4.3 stated as
five ordered short-circuiting admission checks, with check 3 the single
test "already pending or already visited by canonical form". Used only
to compare against `enqueue`, which is translated from the source. -/
def enqueueSpec (env : FlatEnv) (st : FlatState) (u source : String) : FlatState :=
  if !env.isHttpUrl u then st
  else
    let nu := env.normalizeUrl u
    if !env.sameOrigin nu env.startUrl then st
    else if nu ∈ st.queued ∨ (mapLookup st.canonicalByRequested nu).isSome then st
    else if st.pages.length + st.queue.length ≥ env.maxPages then st
    else if !env.canFetch nu then st
    else { st with queued := setAdd st.queued nu, queue := st.queue ++ [⟨nu, source⟩] }

/-- The worker loop head (part_002 lines 94-99): repeat the condition
check `queue.length && pages.size < maxPages`, the `shift`, and the two
duplicate re-checks, until an item is dispatched to the backend or the
loop exits. All of this runs in one atomic segment (no await). Returns
the remaining queue and the worker status. -/
def advanceLoop (env : FlatEnv) (pages : List (String × PageRec))
    (cbr : List (String × String)) : List Item → List Item × WStatus
  | [] => ([], WStatus.done)
  | item :: rest =>
    if env.maxPages ≤ pages.length then (item :: rest, WStatus.done)
    else if (mapLookup pages item.url).isSome then advanceLoop env pages cbr rest
    else if (mapLookup cbr item.url).isSome then advanceLoop env pages cbr rest
    else (rest, WStatus.fetching item)

/-- Worker `i` enters its loop for the first time (the atomic segment up
to its first `await`, or termination). -/
def stepStart (env : FlatEnv) (st : FlatState) (i : Nat) : FlatState :=
  let p := advanceLoop env st.pages st.canonicalByRequested st.queue
  { st with queue := p.1, workers := st.workers.set i p.2 }

/-- The record stored by `pages.set(canonicalUrl, ...)` in the worker. -/
def recordPage (canonicalUrl : String) (r : PageResult) (item : Item) : PageRec :=
  { url := canonicalUrl
    finalUrl := r.finalUrl.getD item.url
    status := r.status
    title := r.title
    metaDescription := r.metaDescription
    h1 := r.h1
    fullText := r.fullText
    links := r.links
    images := r.images
    screenshotPath := r.screenshotPath
    discoveredFrom := item.source }

/-- Worker `i`, suspended in `visitAndExtract item.url`, resumes: the
atomic segment from the await resolution (part_002 lines 109-137) -
canonicalize the final URL, record the alias, record the page unless its
canonical form is already recorded, enqueue discovered links in site
scope - fused with the next run of the loop head, up to the next await
or loop exit. -/
def stepComplete (env : FlatEnv) (st : FlatState) (i : Nat) (item : Item) : FlatState :=
  let r := env.visitAndExtract item.url
  let canonicalUrl := env.normalizeUrl (r.finalUrl.getD item.url)
  let cbr1 := mapSet st.canonicalByRequested item.url canonicalUrl
  let cbr2 := if canonicalUrl ≠ item.url then mapSet cbr1 canonicalUrl canonicalUrl else cbr1
  let st1 :=
    if (mapLookup st.pages canonicalUrl).isSome then
      { st with canonicalByRequested := cbr2 }
    else
      let st' := { st with canonicalByRequested := cbr2,
                           pages := mapSet st.pages canonicalUrl (recordPage canonicalUrl r item) }
      if env.scope = "site" then
        r.links.foldl (fun s l => enqueue env s l item.url) st'
      else st'
  let p := advanceLoop env st1.pages st1.canonicalByRequested st1.queue
  { st1 with queue := p.1, workers := st1.workers.set i p.2 }

/-- The seeded state of `crawlSite` before the workers run: provided
URLs or the start URL are enqueued, then in site scope each sitemap
candidate contributes its URLs through the same `enqueue` gate
(part_002 lines 49-87). Three workers, as hardcoded by
`Promise.all([limit(worker), limit(worker), limit(worker)])`. -/
def initFlatState (env : FlatEnv) : FlatState :=
  let st0 : FlatState :=
    { pages := [], canonicalByRequested := [], queue := [], queued := [],
      workers := [WStatus.idle, WStatus.idle, WStatus.idle] }
  let st1 :=
    if env.scope = "provided" then
      (if env.targetUrls.isEmpty then [env.startUrl] else env.targetUrls).foldl
        (fun s u => enqueue env s u "provided") st0
    else enqueue env st0 env.startUrl "start_url"
  if env.scope = "site" then
    env.sitemapUrls.foldl
      (fun s sm =>
        (env.fetchSitemapUrls sm).foldl (fun s2 u => enqueue env s2 u ("sitemap:" ++ sm)) s)
      st1
  else st1

/-- One interleaving step of the worker pool: some worker either enters
its loop or resumes from its suspended fetch. -/
inductive FlatStep (env : FlatEnv) : FlatState → FlatState → Prop
  | start (st : FlatState) (i : Nat) (h : st.workers[i]? = some WStatus.idle) :
      FlatStep env st (stepStart env st i)
  | complete (st : FlatState) (i : Nat) (item : Item)
      (h : st.workers[i]? = some (WStatus.fetching item)) :
      FlatStep env st (stepComplete env st i item)

/-- Reflexive-transitive closure of `FlatStep`: the states reachable in
some interleaved execution of the worker pool. -/
inductive FlatReach (env : FlatEnv) : FlatState → FlatState → Prop
  | refl (st : FlatState) : FlatReach env st st
  | tail (a b c : FlatState) (hab : FlatReach env a b) (hbc : FlatStep env b c) :
      FlatReach env a c

/-! ## Adaptive crawl state machine (src/agent: state.js, nodes, graph) -/

/-- A crawl error as appended to `state.errors`. The `url` field is
absent (`none`) for the error appended by `analyzeNode`. The wall-clock
`timestamp` field of the source record is outside the model. -/
structure ErrInfo where
  url : Option String
  error : String
deriving DecidableEq, Repr

/-- The interface of the robots policy object as used by `crawlNode`
(`state.robotsPolicy?.canFetch(l) !== false`). -/
structure AgentRobots where
  canFetch : String → Bool

/-- The URL-policy collaborators from src/core/url.js used by the agent
nodes, kept abstract. -/
structure UrlFns where
  normalizeUrl : String → String
  sameOrigin : String → String → Bool

/-- The `AgentState` channels of src/agent/state.js. -/
structure AgentSt where
  startUrl : String
  scope : String
  maxPages : Nat
  concurrency : Nat
  queue : List Item
  visited : List String
  pages : List PageResult
  errors : List ErrInfo
  retryCount : Nat
  currentUrl : Option String
  currentPage : Option PageResult
  phase : String
  action : Option String
  actionReason : Option String
  llmAnalysis : Option String
  robotsPolicy : Option AgentRobots
  sitemapUrls : List String
  headed : Bool
  humanIntervention : Bool
  outputDir : Option String
  screenshots : Bool

/-- A partial update returned by a node: `none` (resp. `[]` for the
append-reduced lists) models a field absent from the returned object.
`llmAnalysis := some none` models the field present with value null.
The source nodes never put `queue`, `robotsPolicy` or `sitemapUrls`
into the updates embedded here. -/
structure AgentUpdate where
  phase : Option String := none
  action : Option String := none
  actionReason : Option String := none
  currentUrl : Option String := none
  currentPage : Option PageResult := none
  pages : List PageResult := []
  errors : List ErrInfo := []
  visited : Option (List String) := none
  retryCount : Option Nat := none
  humanIntervention : Option Bool := none
  llmAnalysis : Option (Option String) := none
deriving DecidableEq, Repr

/-- What one node invocation produces: the frontier array as it stands
after the node ran (the source nodes mutate `state.queue` in place with
shift, unshift and push; `initNode` instead returns a copied queue in
its update object - both reach the next node as the new queue), plus
the partial update object the node returns. -/
structure CrawlRet where
  queue : List Item
  update : AgentUpdate
deriving DecidableEq, Repr

/-- The per-field reducers of `AgentState` (src/agent/state.js lines
3-51) applied to one returned update: replace for scalars, append for
`pages` and `errors`, replace-if-present for `visited`, `retryCount`
and `queue`. -/
def mergeRet (st : AgentSt) (r : CrawlRet) : AgentSt :=
  let u := r.update
  { st with
    queue := r.queue
    phase := u.phase.getD st.phase
    action := match u.action with | some a => some a | none => st.action
    actionReason := match u.actionReason with | some a => some a | none => st.actionReason
    currentUrl := match u.currentUrl with | some a => some a | none => st.currentUrl
    currentPage := match u.currentPage with | some a => some a | none => st.currentPage
    pages := st.pages ++ u.pages
    errors := st.errors ++ u.errors
    visited := u.visited.getD st.visited
    retryCount := u.retryCount.getD st.retryCount
    humanIntervention := u.humanIntervention.getD st.humanIntervention
    llmAnalysis := match u.llmAnalysis with | some v => v | none => st.llmAnalysis }

/-- `initNode` (part_004 lines 4-18): copy the queue, seed it with the
start URL if empty and the start URL is truthy, move to discovery. -/
def initNode (st : AgentSt) : CrawlRet :=
  let queue :=
    if st.queue.isEmpty ∧ st.startUrl ≠ "" then st.queue ++ [⟨st.startUrl, "start_url"⟩]
    else st.queue
  ⟨queue, { phase := some "discovery" }⟩

/-- `state.robotsPolicy?.canFetch(l) !== false`: passes when the policy
is absent (optional chaining yields undefined) or allows the URL. -/
def robotsAllows (p : Option AgentRobots) (l : String) : Bool :=
  match p with
  | none => true
  | some rp => rp.canFetch l

/-- Outcome of the `backend.visitAndExtract` call made by `crawlNode`:
resolution or a rejection carrying the error message. -/
inductive FetchOutcome
  | success (pr : PageResult)
  | failure (msg : String)
deriving Repr

/-- The update `crawlNode` returns when the frontier is empty or the
budget is met. -/
def crawlDoneUpdate : AgentUpdate :=
  { phase := some "analyze", action := some "done" }

/-- `crawlNode` (part_004 lines 53-138), translated branch for branch:
done check, dequeue, visited re-check, then on success record the page,
grow the visited set and enqueue up to 10 filtered links, and on
failure classify bot challenges by message pattern, retry while
`retryCount < 3` by requeueing the same item at the front, else give up
marking the URL visited. -/
def crawlNode (fns : UrlFns) (st : AgentSt) (outcome : FetchOutcome) : CrawlRet :=
  match st.queue with
  | [] => ⟨st.queue, crawlDoneUpdate⟩
  | item :: rest =>
    if st.maxPages ≤ st.pages.length then ⟨st.queue, crawlDoneUpdate⟩
    else
      let url := item.url
      if url ∈ st.visited then
        ⟨rest, { action := some "skip", actionReason := some "Already visited" }⟩
      else
        match outcome with
        | FetchOutcome.success pr =>
          let visited := setAdd (setAdd st.visited url) (fns.normalizeUrl (pr.finalUrl.getD url))
          let newLinks :=
            if st.scope = "site" then
              ((((pr.links.filter (fun l => fns.sameOrigin l st.startUrl)).filter
                    (fun l => robotsAllows st.robotsPolicy l)).filter
                    (fun l => fns.normalizeUrl l ∉ visited)).take 10).map
                (fun l => (⟨fns.normalizeUrl l, url⟩ : Item))
            else []
          ⟨rest ++ newLinks,
            { currentUrl := some url
              currentPage := some pr
              pages := [pr]
              visited := some visited
              action := some "crawled"
              actionReason := some ("Successfully crawled: " ++ (if pr.title = "" then url else pr.title))
              retryCount := some 0 }⟩
        | FetchOutcome.failure msg =>
          let errorInfo : ErrInfo := ⟨some url, msg⟩
          if strContains msg "blocked" || strContains msg "captcha" || strContains msg "challenge" then
            ⟨rest,
              { errors := [errorInfo]
                action := some "blocked"
                actionReason := some "Bot detection triggered - may need human intervention"
                humanIntervention := some true }⟩
          else if st.retryCount < 3 then
            ⟨item :: rest,
              { errors := [errorInfo]
                action := some "retry"
                actionReason := some ("Retry " ++ toString (st.retryCount + 1) ++ "/3: " ++ msg)
                retryCount := some (st.retryCount + 1) }⟩
          else
            ⟨rest,
              { errors := [errorInfo]
                visited := some (setAdd st.visited url)
                action := some "failed"
                actionReason := some ("Failed after retries: " ++ msg)
                retryCount := some 0 }⟩

/-- `humanInterventionNode` (part_004 lines 174-194): headless runs
degrade to phase report with the flag cleared; headed runs wait for the
operator (the stdin wait is outside the model) and return to crawl with
the flag cleared and the retry counter reset. -/
def humanInterventionNode (st : AgentSt) : CrawlRet :=
  if !st.headed then
    ⟨st.queue, { phase := some "report", humanIntervention := some false }⟩
  else
    ⟨st.queue, { phase := some "crawl", humanIntervention := some false, retryCount := some 0 }⟩

/-- `analyzeNode` (part_004 lines 140-172): without an LLM or without
pages, move to report with llmAnalysis null; otherwise the LLM call
either yields an analysis or its failure is recorded as an error entry
(the content summary string fed to the LLM is outside the model). -/
def analyzeNode (st : AgentSt) (hasLlm : Bool) (analysisResult : Except String String) : CrawlRet :=
  if !hasLlm ∨ st.pages.length = 0 then
    ⟨st.queue, { phase := some "report", llmAnalysis := some none }⟩
  else
    match analysisResult with
    | Except.ok a => ⟨st.queue, { phase := some "report", llmAnalysis := some (some a) }⟩
    | Except.error e =>
      ⟨st.queue,
        { phase := some "report", llmAnalysis := some none,
          errors := [⟨none, "LLM analysis failed: " ++ e⟩] }⟩

/-- `shouldContinueCrawling` (part_004 lines 196-203): the router of
the conditional edges out of the crawl node. -/
def shouldContinueCrawling (st : AgentSt) : String :=
  if st.humanIntervention then "human"
  else if st.phase = "analyze" then "analyze"
  else if st.phase = "report" then "report"
  else if st.maxPages ≤ st.pages.length then "analyze"
  else if st.queue.isEmpty then "analyze"
  else "crawl"

/-- Whether the next `crawlNode` invocation will reach the
`backend.visitAndExtract` call (it does unless it takes the done branch
or the already-visited skip). Used by the driver to consume the fetch
oracle exactly when the source performs a fetch. -/
def crawlWillFetch (st : AgentSt) : Bool :=
  match st.queue with
  | [] => false
  | item :: _ => decide (st.pages.length < st.maxPages ∧ item.url ∉ st.visited)

/-- The compiled graph of `createCrawlAgent` (part_005 lines 12-32)
from the crawl node on: run `crawlNode`, route with
`shouldContinueCrawling` (crawl loops, human runs the intervention node
and takes its unconditional edge back to crawl, analyze runs
`analyzeNode` and ends, report ends). `oracles` supplies one
`FetchOutcome` per fetch performed; `fuel` bounds the number of
supersteps. -/
def runCrawlLoop (fns : UrlFns) (hasLlm : Bool) (analysisResult : Except String String) :
    Nat → List FetchOutcome → AgentSt → AgentSt
  | 0, _, st => st
  | Nat.succ fuel, oracles, st =>
    let outcome :=
      if crawlWillFetch st then oracles.headD (FetchOutcome.failure "oracle exhausted")
      else FetchOutcome.failure "unused"
    let oracles' := if crawlWillFetch st then oracles.tail else oracles
    let st1 := mergeRet st (crawlNode fns st outcome)
    match shouldContinueCrawling st1 with
    | "crawl" => runCrawlLoop fns hasLlm analysisResult fuel oracles' st1
    | "human" =>
      runCrawlLoop fns hasLlm analysisResult fuel oracles' (mergeRet st1 (humanInterventionNode st1))
    | "analyze" => mergeRet st1 (analyzeNode st1 hasLlm analysisResult)
    | _ => st1

/-- URL functions for concrete runs: identity normalization, everything
same-origin. -/
def idFns : UrlFns :=
  { normalizeUrl := id, sameOrigin := fun _ _ => true }

/-- An agent state at the start of the crawl phase (after init and
discovery) holding a single frontier item, with the defaults of
`createInitialState`. -/
def readyState (url : String) : AgentSt :=
  { startUrl := ""
    scope := "provided"
    maxPages := 25
    concurrency := 3
    queue := [⟨url, "provided"⟩]
    visited := []
    pages := []
    errors := []
    retryCount := 0
    currentUrl := none
    currentPage := none
    phase := "crawl"
    action := none
    actionReason := none
    llmAnalysis := none
    robotsPolicy := none
    sitemapUrls := []
    headed := false
    humanIntervention := false
    outputDir := none
    screenshots := true }

/-! ## Admission control (src/crawler/discovery.js) -/

/-- The robots-parser collaborator result: `isAllowed` returns
`none` (undefined) when no rule applies to the URL for the user agent,
and `getSitemaps()` may be null. -/
structure RobotsParsed where
  isAllowed : String → Option Bool
  sitemaps : Option (List String)

/-- The `RobotsPolicy` object returned by `getRobotsPolicy`. -/
structure RobotsPolicyM where
  robotsUrl : String
  hasRobotsTxt : Bool
  canFetch : String → Bool
  getSitemaps : List String
  raw : Option String

/-- `getRobotsPolicy` (discovery.js lines 9-33): fetch the robots.txt
text and parse it; the policy allows a URL unless the parser explicitly
disallows it (`parsed.isAllowed(u, playwrighty) !== false`). Any
failure of the fetch or of the parser is caught and yields the
permissive default policy. The network fetch and the parser are the
external collaborators, passed as `fetched` and `parse`. -/
def getRobotsPolicy (robotsUrl : String) (fetched : Except String String)
    (parse : String → Except String RobotsParsed) : RobotsPolicyM :=
  match fetched with
  | Except.error _ =>
    { robotsUrl := robotsUrl, hasRobotsTxt := false, canFetch := fun _ => true,
      getSitemaps := [], raw := none }
  | Except.ok txt =>
    match parse txt with
    | Except.error _ =>
      { robotsUrl := robotsUrl, hasRobotsTxt := false, canFetch := fun _ => true,
        getSitemaps := [], raw := none }
    | Except.ok parsed =>
      { robotsUrl := robotsUrl
        hasRobotsTxt := true
        canFetch := fun u =>
          match parsed.isAllowed u with
          | some false => false
          | _ => true
        getSitemaps := parsed.sitemaps.getD []
        raw := some txt }

/-! ## Output publication (`crawlSite` lines 141-193 and
`runAgenticCrawl` lines 77-130 share this skeleton) -/

/-- The filesystem facts the publication claims talk about: existence
of the temp and final directories for this run id, whether their
contents are the fully written report, and how many renames have been
performed. -/
structure FsState where
  tempExists : Bool
  tempComplete : Bool
  finalExists : Bool
  finalComplete : Bool
  renameCount : Nat
deriving DecidableEq, Repr

/-- The points before the final rename at which the run body can throw:
inside the crawl (for example the fetch collaborator throwing), or
inside `writeReport`. -/
inductive FailPoint
  | duringCrawl
  | duringWrite
deriving DecidableEq, Repr

/-- The publication skeleton shared by `crawlSite` and
`runAgenticCrawl`: mkdir the temp directory; run the crawl body and
`writeReport` inside `try`; on success remove any pre-existing final
directory and rename temp to final, setting the `success` flag; in
`finally`, close the backend (errors ignored) and, when the success
flag is unset, delete the temp directory. `preFinal`/`preFinalComplete`
describe a final directory for this run id existing before the run;
`failAt` selects the failure point, `none` meaning no failure. -/
def publishRun (preFinal preFinalComplete : Bool) (failAt : Option FailPoint) : FsState :=
  let s0 : FsState :=
    { tempExists := true, tempComplete := false,
      finalExists := preFinal, finalComplete := preFinalComplete, renameCount := 0 }
  match failAt with
  | some _ => { s0 with tempExists := false, tempComplete := false }
  | none =>
    let s1 := { s0 with tempComplete := true }
    let s2 := if s1.finalExists then { s1 with finalExists := false, finalComplete := false } else s1
    { s2 with
      tempExists := false
      tempComplete := false
      finalExists := true
      finalComplete := s2.tempComplete
      renameCount := s2.renameCount + 1 }

/-! ## Theorems -/

/-- Claim C7: the flat orchestrator enqueue applies exactly the five
admission checks in the fixed order non-http scheme, non-same-origin
after canonicalization, already pending or already visited by canonical
form, budget ceiling pending plus visited at least maxPages, robots
disallow - short-circuiting on the first failure - and an accepted URL
is marked pending and appended to the back of the FIFO queue: `enqueue`
as translated from the source coincides with the five-check chain
`enqueueSpec` written from the spec, and every call either leaves the
state unchanged or appends the canonicalized URL to the back of the
queue while marking it pending in `queued`. -/
theorem enqueue_admission_order (env : FlatEnv) (st : FlatState) (u source : String) :
    enqueue env st u source = enqueueSpec env st u source ∧
    (enqueue env st u source = st ∨
      enqueue env st u source =
        { st with queued := setAdd st.queued (env.normalizeUrl u),
                  queue := st.queue ++ [⟨env.normalizeUrl u, source⟩] }) := by
  constructor
  · simp only [enqueue, enqueueSpec]
    split_ifs <;> first | rfl | tauto
  · simp only [enqueue]
    split_ifs <;> first | (left; rfl) | (right; rfl)

/-- Claim C8: when the robots.txt fetch or parse fails for any reason,
`getRobotsPolicy` returns (rather than throws) the permissive default
policy: hasRobotsTxt is false, canFetch accepts every URL, and the
sitemap list is empty - so a robots.txt failure never prevents the
crawl from starting. -/
theorem robots_failure_permissive (robotsUrl : String)
    (parse : String → Except String RobotsParsed) :
    (∀ e : String,
        (getRobotsPolicy robotsUrl (Except.error e) parse).hasRobotsTxt = false ∧
        (∀ u, (getRobotsPolicy robotsUrl (Except.error e) parse).canFetch u = true) ∧
        (getRobotsPolicy robotsUrl (Except.error e) parse).getSitemaps = []) ∧
    (∀ txt e, parse txt = Except.error e →
        (getRobotsPolicy robotsUrl (Except.ok txt) parse).hasRobotsTxt = false ∧
        (∀ u, (getRobotsPolicy robotsUrl (Except.ok txt) parse).canFetch u = true) ∧
        (getRobotsPolicy robotsUrl (Except.ok txt) parse).getSitemaps = []) := by
  refine ⟨fun e => ⟨rfl, fun u => rfl, rfl⟩, fun txt e h => ?_⟩
  simp [getRobotsPolicy, h]

/-- Witness for C8 at a concrete failing fetch and a concrete failing
parser. -/
theorem robots_failure_permissive_witness :
    (getRobotsPolicy "robots" (Except.error "HTTP 500")
        (fun _ => Except.error "bad syntax")).hasRobotsTxt = false ∧
    (getRobotsPolicy "robots" (Except.ok "some text")
        (fun _ => Except.error "bad syntax")).canFetch "page" = true :=
  ⟨((robots_failure_permissive "robots" (fun _ => Except.error "bad syntax")).1 "HTTP 500").1,
    (((robots_failure_permissive "robots" (fun _ => Except.error "bad syntax")).2
      "some text" "bad syntax" rfl).2.1 "page")⟩

/-- Claim C10: on a successfully fetched and parsed robots.txt, the
policy allows every URL for which the parser has no applicable rule
(`isAllowed` returns undefined), and `canFetch` returns false exactly
when the parser explicitly disallows the URL. -/
theorem robots_canFetch_default_allow (robotsUrl txt : String)
    (parse : String → Except String RobotsParsed) (parsed : RobotsParsed)
    (h : parse txt = Except.ok parsed) :
    (∀ u, parsed.isAllowed u = none →
        (getRobotsPolicy robotsUrl (Except.ok txt) parse).canFetch u = true) ∧
    (∀ u, ((getRobotsPolicy robotsUrl (Except.ok txt) parse).canFetch u = false ↔
        parsed.isAllowed u = some false)) := by
  simp only [getRobotsPolicy, h]
  constructor
  · intro u hu; simp [hu]
  · intro u
    cases hia : parsed.isAllowed u with
    | none => simp [hia]
    | some b => cases b <;> simp [hia]

/-- Witness for C10: a parser with one explicit disallow rule and no
rule elsewhere. -/
theorem robots_canFetch_default_allow_witness :
    (getRobotsPolicy "robots" (Except.ok "txt")
        (fun _ => Except.ok ⟨fun u => if u = "private" then some false else none, none⟩)).canFetch
      "elsewhere" = true ∧
    (getRobotsPolicy "robots" (Except.ok "txt")
        (fun _ => Except.ok ⟨fun u => if u = "private" then some false else none, none⟩)).canFetch
      "private" = false := by
  refine ⟨(robots_canFetch_default_allow "robots" "txt" _ _ rfl).1 "elsewhere" (by simp), ?_⟩
  exact ((robots_canFetch_default_allow "robots" "txt" _ _ rfl).2 "private").mpr (by simp)

/-- Claim C3: if any failure occurs before the final rename (the fetch
collaborator throwing mid-crawl, or the report write failing), the temp
directory for the run is deleted afterwards and no final directory for
that (fresh) run id exists; on a successful run the final directory is
produced by exactly one rename of the fully written temp directory. -/
theorem publication_atomicity :
    (∀ (preFinal preFinalComplete : Bool) (f : FailPoint),
        (publishRun preFinal preFinalComplete (some f)).tempExists = false ∧
        (publishRun preFinal preFinalComplete (some f)).finalExists = preFinal) ∧
    (∀ f : FailPoint, (publishRun false false (some f)).finalExists = false) ∧
    (∀ preFinal preFinalComplete : Bool,
        (publishRun preFinal preFinalComplete none).finalExists = true ∧
        (publishRun preFinal preFinalComplete none).finalComplete = true ∧
        (publishRun preFinal preFinalComplete none).renameCount = 1 ∧
        (publishRun preFinal preFinalComplete none).tempExists = false) := by
  refine ⟨fun a b f => ⟨rfl, rfl⟩, fun f => rfl, fun a b => ?_⟩
  cases a <;> simp [publishRun]

/-- Claim C9: a fetch failure whose message contains blocked, captcha
or challenge is classified as a bot challenge - the update sets the
human-intervention flag, omits retryCount (no retry consumed), the item
is not requeued, and the router sends the machine to the human state -
while non-matching failures take the transient-retry path: requeue at
the front with the counter incremented while below 3, else give up
marking the URL visited. -/
theorem bot_challenge_classification (fns : UrlFns) (st : AgentSt) (item : Item)
    (rest : List Item) (msg : String)
    (hq : st.queue = item :: rest)
    (hb : st.pages.length < st.maxPages)
    (hv : item.url ∉ st.visited) :
    ((strContains msg "blocked" || strContains msg "captcha" || strContains msg "challenge") = true →
      crawlNode fns st (FetchOutcome.failure msg) =
        ⟨rest,
          { errors := [⟨some item.url, msg⟩]
            action := some "blocked"
            actionReason := some "Bot detection triggered - may need human intervention"
            humanIntervention := some true }⟩ ∧
      (crawlNode fns st (FetchOutcome.failure msg)).update.retryCount = none ∧
      shouldContinueCrawling (mergeRet st (crawlNode fns st (FetchOutcome.failure msg))) = "human") ∧
    ((strContains msg "blocked" || strContains msg "captcha" || strContains msg "challenge") = false →
      (st.retryCount < 3 →
        crawlNode fns st (FetchOutcome.failure msg) =
          ⟨item :: rest,
            { errors := [⟨some item.url, msg⟩]
              action := some "retry"
              actionReason := some ("Retry " ++ toString (st.retryCount + 1) ++ "/3: " ++ msg)
              retryCount := some (st.retryCount + 1) }⟩) ∧
      (¬ st.retryCount < 3 →
        crawlNode fns st (FetchOutcome.failure msg) =
          ⟨rest,
            { errors := [⟨some item.url, msg⟩]
              visited := some (setAdd st.visited item.url)
              action := some "failed"
              actionReason := some ("Failed after retries: " ++ msg)
              retryCount := some 0 }⟩)) := by
  have hnb : ¬ st.maxPages ≤ st.pages.length := Nat.not_le.mpr hb
  constructor
  · intro hmsg
    refine ⟨?_, ?_, ?_⟩ <;>
      simp [crawlNode, hq, hnb, hv, hmsg, mergeRet, shouldContinueCrawling]
  · intro hmsg
    constructor
    · intro hr
      simp [crawlNode, hq, hnb, hv, hmsg, hr]
    · intro hr
      simp [crawlNode, hq, hnb, hv, hmsg, hr]

/-- Witness for C9 at a concrete captcha failure on a ready state. -/
theorem bot_challenge_classification_witness :
    crawlNode idFns (readyState "a") (FetchOutcome.failure "captcha detected") =
      ⟨[],
        { errors := [⟨some "a", "captcha detected"⟩]
          action := some "blocked"
          actionReason := some "Bot detection triggered - may need human intervention"
          humanIntervention := some true }⟩ :=
  ((bot_challenge_classification idFns (readyState "a") ⟨"a", "provided"⟩ [] "captcha detected"
      rfl (by decide) (by decide)).1 (by decide)).1

/-- A concrete extraction result used by closed runs. -/
def samplePage : PageResult :=
  { status := some 200, finalUrl := none, title := "T", metaDescription := "",
    h1 := [], fullText := "", links := [], images := [], screenshotPath := none }

/-- Claim C2 counterexample: a URL whose fetch fails twice with
transient errors and then succeeds yields exactly one PageRecord but
TWO CrawlErrors for that URL, not zero - `crawlNode` appends an error
entry on every failed attempt, including retried ones, and the errors
channel is append-reduced. -/
theorem retry_success_errors_counterexample :
    (runCrawlLoop idFns false (Except.ok "") 10
        [FetchOutcome.failure "net reset", FetchOutcome.failure "dns fail",
         FetchOutcome.success samplePage] (readyState "a")).pages.length = 1 ∧
    ((runCrawlLoop idFns false (Except.ok "") 10
        [FetchOutcome.failure "net reset", FetchOutcome.failure "dns fail",
         FetchOutcome.success samplePage] (readyState "a")).errors.filter
      (fun e => e.url = some "a")).length = 2 := by
  decide

/-- Claim C2 as amended: a URL whose fetch fails twice with transient
errors and then succeeds yields exactly one PageRecord and exactly one
CrawlError per failed attempt (two in total); a URL whose fetch fails
four times with transient errors yields zero PageRecords, four
CrawlErrors, and the URL is marked visited. -/
theorem retry_policy_amended (url m1 m2 m3 m4 : String) (pr : PageResult)
    (h1b : strContains m1 "blocked" = false) (h1c : strContains m1 "captcha" = false)
    (h1h : strContains m1 "challenge" = false)
    (h2b : strContains m2 "blocked" = false) (h2c : strContains m2 "captcha" = false)
    (h2h : strContains m2 "challenge" = false)
    (h3b : strContains m3 "blocked" = false) (h3c : strContains m3 "captcha" = false)
    (h3h : strContains m3 "challenge" = false)
    (h4b : strContains m4 "blocked" = false) (h4c : strContains m4 "captcha" = false)
    (h4h : strContains m4 "challenge" = false) :
    ((runCrawlLoop idFns false (Except.ok "") 10
        [FetchOutcome.failure m1, FetchOutcome.failure m2, FetchOutcome.success pr]
        (readyState url)).pages = [pr] ∧
      (runCrawlLoop idFns false (Except.ok "") 10
        [FetchOutcome.failure m1, FetchOutcome.failure m2, FetchOutcome.success pr]
        (readyState url)).errors = [⟨some url, m1⟩, ⟨some url, m2⟩]) ∧
    ((runCrawlLoop idFns false (Except.ok "") 10
        [FetchOutcome.failure m1, FetchOutcome.failure m2, FetchOutcome.failure m3,
         FetchOutcome.failure m4] (readyState url)).pages = [] ∧
      (runCrawlLoop idFns false (Except.ok "") 10
        [FetchOutcome.failure m1, FetchOutcome.failure m2, FetchOutcome.failure m3,
         FetchOutcome.failure m4] (readyState url)).errors =
        [⟨some url, m1⟩, ⟨some url, m2⟩, ⟨some url, m3⟩, ⟨some url, m4⟩] ∧
      url ∈ (runCrawlLoop idFns false (Except.ok "") 10
        [FetchOutcome.failure m1, FetchOutcome.failure m2, FetchOutcome.failure m3,
         FetchOutcome.failure m4] (readyState url)).visited) := by
  constructor
  · constructor <;>
      simp [runCrawlLoop, crawlNode, crawlWillFetch, mergeRet, shouldContinueCrawling,
        analyzeNode, readyState, setAdd, h1b, h1c, h1h, h2b, h2c, h2h]
  · refine ⟨?_, ?_, ?_⟩ <;>
      simp [runCrawlLoop, crawlNode, crawlWillFetch, mergeRet, shouldContinueCrawling,
        analyzeNode, readyState, setAdd, h1b, h1c, h1h, h2b, h2c, h2h, h3b, h3c, h3h,
        h4b, h4c, h4h]

/-- Witness for the amended C2 at concrete transient messages. -/
theorem retry_policy_amended_witness :
    (runCrawlLoop idFns false (Except.ok "") 10
        [FetchOutcome.failure "net reset", FetchOutcome.failure "dns fail",
         FetchOutcome.success samplePage] (readyState "a")).errors =
      [⟨some "a", "net reset"⟩, ⟨some "a", "dns fail"⟩] :=
  ((retry_policy_amended "a" "net reset" "dns fail" "timeout 1" "timeout 2" samplePage
      (by decide) (by decide) (by decide) (by decide) (by decide) (by decide)
      (by decide) (by decide) (by decide) (by decide) (by decide) (by decide)).1).2

/-- Claim C4 counterexample: `crawlNode` changes the frontier queue of
the state it receives (the source does `state.queue.shift()` in place)
while its returned partial update does not carry a queue field, so the
queue of the received state does not stay unchanged and the change is
not communicated through the returned update. -/
theorem transition_mutates_queue_counterexample :
    (crawlNode idFns (readyState "a") (FetchOutcome.success samplePage)).queue ≠
      (readyState "a").queue := by
  decide

/-- Claim C4 as amended: apart from the frontier queue - which
`discoveryNode` and `crawlNode` mutate in place and omit from their
returned updates - transitions communicate state changes only through
the returned partial update merged by the per-field reducers: every
field other than the queue that is absent from a returned update is
unchanged by the merge, and the configuration fields no update can
carry are always unchanged. -/
theorem state_merge_frame_amended (st : AgentSt) (r : CrawlRet) :
    (mergeRet st r).queue = r.queue ∧
    (r.update.phase = none → (mergeRet st r).phase = st.phase) ∧
    (r.update.action = none → (mergeRet st r).action = st.action) ∧
    (r.update.actionReason = none → (mergeRet st r).actionReason = st.actionReason) ∧
    (r.update.currentUrl = none → (mergeRet st r).currentUrl = st.currentUrl) ∧
    (r.update.currentPage = none → (mergeRet st r).currentPage = st.currentPage) ∧
    (r.update.pages = [] → (mergeRet st r).pages = st.pages) ∧
    (r.update.errors = [] → (mergeRet st r).errors = st.errors) ∧
    (r.update.visited = none → (mergeRet st r).visited = st.visited) ∧
    (r.update.retryCount = none → (mergeRet st r).retryCount = st.retryCount) ∧
    (r.update.humanIntervention = none →
      (mergeRet st r).humanIntervention = st.humanIntervention) ∧
    (r.update.llmAnalysis = none → (mergeRet st r).llmAnalysis = st.llmAnalysis) ∧
    (mergeRet st r).startUrl = st.startUrl ∧
    (mergeRet st r).scope = st.scope ∧
    (mergeRet st r).maxPages = st.maxPages ∧
    (mergeRet st r).concurrency = st.concurrency ∧
    (mergeRet st r).robotsPolicy = st.robotsPolicy ∧
    (mergeRet st r).sitemapUrls = st.sitemapUrls ∧
    (mergeRet st r).headed = st.headed ∧
    (mergeRet st r).outputDir = st.outputDir ∧
    (mergeRet st r).screenshots = st.screenshots := by
  refine ⟨rfl, fun h => ?_, fun h => ?_, fun h => ?_, fun h => ?_, fun h => ?_, fun h => ?_,
    fun h => ?_, fun h => ?_, fun h => ?_, fun h => ?_, fun h => ?_,
    rfl, rfl, rfl, rfl, rfl, rfl, rfl, rfl, rfl⟩ <;>
  simp [mergeRet, h]

/-- Witness for the amended C4 at a concrete state and an empty
update. -/
theorem state_merge_frame_amended_witness :
    (mergeRet (readyState "b") ⟨[], {}⟩).phase = (readyState "b").phase ∧
    (mergeRet (readyState "b") ⟨[], {}⟩).pages = (readyState "b").pages :=
  ⟨(state_merge_frame_amended (readyState "b") ⟨[], {}⟩).2.1 rfl,
    (state_merge_frame_amended (readyState "b") ⟨[], {}⟩).2.2.2.2.2.2.1 rfl⟩

/-- A crawl-phase state with three frontier items, used to exercise the
human-intervention path. -/
def threeItemState : AgentSt :=
  { readyState "p" with
    queue := [⟨"p", "provided"⟩, ⟨"a", "provided"⟩, ⟨"b", "provided"⟩] }

/-- A page result with the given title. -/
def titledPage (t : String) : PageResult :=
  { status := some 200, finalUrl := none, title := t, metaDescription := "",
    h1 := [], fullText := "", links := [], images := [], screenshotPath := none }

/-- Claim C5 counterexample: entering the human state unattended does
NOT transition the machine immediately to analyze. The human node sets
phase to report (not analyze), and the unconditional human-to-crawl
edge makes the machine crawl one more item; the run below (page p
succeeds, page a hits a bot block, page b succeeds, an LLM is
available) ends with two crawled pages and no llmAnalysis - the
analyze node, which would have produced the SUMMARY, never ran. -/
theorem human_unattended_counterexample :
    (mergeRet { readyState "x" with humanIntervention := true }
        (humanInterventionNode { readyState "x" with humanIntervention := true })).phase ≠
      "analyze" ∧
    (runCrawlLoop idFns true (Except.ok "SUMMARY") 10
        [FetchOutcome.success (titledPage "P"), FetchOutcome.failure "request blocked",
         FetchOutcome.success (titledPage "B")] threeItemState).pages.length = 2 ∧
    (runCrawlLoop idFns true (Except.ok "SUMMARY") 10
        [FetchOutcome.success (titledPage "P"), FetchOutcome.failure "request blocked",
         FetchOutcome.success (titledPage "B")] threeItemState).llmAnalysis = none := by
  refine ⟨?_, by decide, by decide⟩
  decide

/-- Claim C5 as amended: in an unattended (non-headed) run the human
node merges to phase report with the human-intervention flag cleared
(the machine then takes the unconditional human-to-crawl edge rather
than going to analyze); in an attended (headed) run, after the operator
signals completion, the machine returns to crawl with phase crawl, the
flag cleared and the retry counter reset, the queue unchanged. -/
theorem human_transition_amended (st : AgentSt) :
    (st.headed = false →
      (mergeRet st (humanInterventionNode st)).phase = "report" ∧
      (mergeRet st (humanInterventionNode st)).humanIntervention = false ∧
      (mergeRet st (humanInterventionNode st)).queue = st.queue ∧
      (mergeRet st (humanInterventionNode st)).retryCount = st.retryCount) ∧
    (st.headed = true →
      (mergeRet st (humanInterventionNode st)).phase = "crawl" ∧
      (mergeRet st (humanInterventionNode st)).humanIntervention = false ∧
      (mergeRet st (humanInterventionNode st)).retryCount = 0 ∧
      (mergeRet st (humanInterventionNode st)).queue = st.queue) := by
  constructor <;> intro h <;> simp [humanInterventionNode, mergeRet, h]

/-- Witness for the amended C5 at a concrete unattended state and a
concrete attended state. -/
theorem human_transition_amended_witness :
    (mergeRet (readyState "w") (humanInterventionNode (readyState "w"))).phase = "report" ∧
    (mergeRet { readyState "w" with headed := true }
        (humanInterventionNode { readyState "w" with headed := true })).phase = "crawl" :=
  ⟨((human_transition_amended (readyState "w")).1 rfl).1,
    ((human_transition_amended { readyState "w" with headed := true }).2 rfl).1⟩

/-! ### Canonical-dedup invariant of the flat worker pool -/

theorem mapLookup_eq_none_iff {α : Type} (m : List (String × α)) (k : String) :
    mapLookup m k = none ↔ k ∉ m.map Prod.fst := by
  induction m with
  | nil => simp [mapLookup]
  | cons p rest ih =>
    obtain ⟨k0, v0⟩ := p
    by_cases h : k0 = k
    · subst h
      simp [mapLookup]
    · rw [show mapLookup ((k0, v0) :: rest) k = mapLookup rest k from by simp [mapLookup, h],
        ih, List.map_cons, List.mem_cons, not_or]
      exact ⟨fun hn => ⟨fun hk => h hk.symm, hn⟩, fun hp => hp.2⟩

theorem mapSet_append_of_lookup_none {α : Type} (m : List (String × α)) (k : String) (v : α)
    (h : mapLookup m k = none) : mapSet m k v = m ++ [(k, v)] := by
  induction m with
  | nil => rfl
  | cons p rest ih =>
    obtain ⟨k0, v0⟩ := p
    simp only [mapLookup] at h
    by_cases hk : k0 = k
    · simp [hk] at h
    · simp only [mapSet, hk, if_false, List.cons_append, List.cons.injEq, true_and]
      exact ih (by simpa [hk] using h)

theorem enqueue_pages (env : FlatEnv) (st : FlatState) (u s : String) :
    (enqueue env st u s).pages = st.pages := by
  simp only [enqueue]
  split_ifs <;> rfl

theorem foldl_enqueue_pages (env : FlatEnv) (src : String) (links : List String)
    (st : FlatState) :
    (links.foldl (fun s l => enqueue env s l src) st).pages = st.pages := by
  induction links generalizing st with
  | nil => rfl
  | cons l ls ih => rw [List.foldl_cons, ih, enqueue_pages]

theorem initFlatState_pages (env : FlatEnv) : (initFlatState env).pages = [] := by
  have hfold : ∀ (L : List String) (st : FlatState),
      ((L.foldl (fun s sm =>
          (env.fetchSitemapUrls sm).foldl (fun s2 u2 => enqueue env s2 u2 ("sitemap:" ++ sm)) s)
        st)).pages = st.pages := by
    intro L
    induction L with
    | nil => intro st; rfl
    | cons sm rest ih =>
      intro st
      rw [List.foldl_cons, ih, foldl_enqueue_pages]
  have hseed : ∀ (L : List String) (src : String) (st : FlatState),
      ((L.foldl (fun s u => enqueue env s u src) st)).pages = st.pages :=
    fun L src st => foldl_enqueue_pages env src L st
  simp only [initFlatState]
  split_ifs <;> simp [hfold, hseed, enqueue_pages]

theorem stepComplete_pages_cases (env : FlatEnv) (st : FlatState) (i : Nat) (item : Item) :
    (stepComplete env st i item).pages = st.pages ∨
    (mapLookup st.pages (env.normalizeUrl
        ((env.visitAndExtract item.url).finalUrl.getD item.url)) = none ∧
      (stepComplete env st i item).pages =
        st.pages ++ [(env.normalizeUrl ((env.visitAndExtract item.url).finalUrl.getD item.url),
          recordPage (env.normalizeUrl ((env.visitAndExtract item.url).finalUrl.getD item.url))
            (env.visitAndExtract item.url) item)]) := by
  by_cases hc : (mapLookup st.pages (env.normalizeUrl
      ((env.visitAndExtract item.url).finalUrl.getD item.url))).isSome
  · left
    simp [stepComplete, hc]
  · have hn : mapLookup st.pages (env.normalizeUrl
        ((env.visitAndExtract item.url).finalUrl.getD item.url)) = none := by
      cases hm : mapLookup st.pages (env.normalizeUrl
          ((env.visitAndExtract item.url).finalUrl.getD item.url)) with
      | none => rfl
      | some v => rw [hm] at hc; simp at hc
    right
    refine ⟨hn, ?_⟩
    by_cases hs : env.scope = "site" <;>
      simp [stepComplete, hc, hs, foldl_enqueue_pages,
        mapSet_append_of_lookup_none _ _ _ hn]

theorem flatStep_pages_nodup (env : FlatEnv) (a b : FlatState) (h : FlatStep env a b)
    (ha : (a.pages.map Prod.fst).Nodup) : (b.pages.map Prod.fst).Nodup := by
  cases h with
  | start i hw => exact ha
  | complete i item hw =>
    rcases stepComplete_pages_cases env a i item with hp | ⟨hn, hp⟩
    · rw [hp]; exact ha
    · rw [hp]
      have hmem : env.normalizeUrl ((env.visitAndExtract item.url).finalUrl.getD item.url) ∉
          a.pages.map Prod.fst := (mapLookup_eq_none_iff _ _).mp hn
      simp only [List.map_append, List.map_cons, List.map_nil]
      exact List.Nodup.append ha (List.nodup_singleton _) (by simpa using hmem)

/-- Claim C6: at most one PageRecord is ever produced per canonical URL
in every interleaved execution of the worker pool - in every reachable
state the keys of the pages map are pairwise distinct; once a requested
URL is recorded in the requested-to-canonical alias map, any further
enqueue of it leaves the state unchanged and the worker loop head never
dispatches it (it only dispatches items with no alias entry and no page
record); and a completion whose final URL canonicalizes to an
already-recorded canonical URL records no new PageRecord. -/
theorem canonical_dedup (env : FlatEnv) :
    (∀ st, FlatReach env (initFlatState env) st → (st.pages.map Prod.fst).Nodup) ∧
    (∀ st (u src : String), (mapLookup st.canonicalByRequested (env.normalizeUrl u)).isSome →
        enqueue env st u src = st) ∧
    (∀ (pages : List (String × PageRec)) (cbr : List (String × String)) (q q' : List Item)
        (item : Item), advanceLoop env pages cbr q = (q', WStatus.fetching item) →
        mapLookup cbr item.url = none ∧ mapLookup pages item.url = none) ∧
    (∀ st (i : Nat) (item : Item),
        (mapLookup st.pages (env.normalizeUrl
          ((env.visitAndExtract item.url).finalUrl.getD item.url))).isSome →
        (stepComplete env st i item).pages = st.pages) := by
  refine ⟨?_, ?_, ?_, ?_⟩
  · intro st h
    induction h with
    | refl => rw [initFlatState_pages]; exact List.nodup_nil
    | tail b c hab hbc ih => exact flatStep_pages_nodup env b c hbc ih
  · intro st u src h
    simp only [enqueue]
    split_ifs <;> simp_all
  · intro pages cbr q
    induction q with
    | nil => intro q' item h; simp [advanceLoop] at h
    | cons item0 rest ih =>
      intro q' item h
      simp only [advanceLoop] at h
      split_ifs at h with h1 h2 h3
      · simp at h
      · exact ih q' item h
      · exact ih q' item h
      · obtain ⟨hq, hw⟩ := Prod.mk.injEq .. ▸ h
        cases hw
        constructor
        · cases hm : mapLookup cbr item0.url with
          | none => rfl
          | some v => rw [hm] at h3; simp at h3
        · cases hm : mapLookup pages item0.url with
          | none => rfl
          | some v => rw [hm] at h2; simp at h2
  · intro st i item h
    simp [stepComplete, h]

/-- A small concrete environment for exercising the flat worker pool. -/
def envW6 : FlatEnv :=
  { startUrl := "a", scope := "provided", targetUrls := [], maxPages := 5,
    sitemapUrls := [], fetchSitemapUrls := fun _ => [],
    normalizeUrl := id, isHttpUrl := fun _ => true, sameOrigin := fun _ _ => true,
    canFetch := fun _ => true,
    visitAndExtract := fun u =>
      { status := some 200, finalUrl := none, title := u, metaDescription := "",
        h1 := [], fullText := "", links := [], images := [], screenshotPath := none } }

/-- A flat state holding an alias entry for url y, used by the C6
witness. -/
def aliasedState : FlatState :=
  { pages := [], canonicalByRequested := [("y", "z")], queue := [], queued := [],
    workers := [WStatus.idle, WStatus.idle, WStatus.idle] }

/-- Witness for C6: the invariant at the initial state, the enqueue
rejection at a concrete aliased URL, and the loop-head guarantee on a
concrete queue. -/
theorem canonical_dedup_witness :
    ((initFlatState envW6).pages.map Prod.fst).Nodup ∧
    enqueue envW6 aliasedState "y" "src" = aliasedState ∧
    (mapLookup [("a", "a")] (Item.url ⟨"b", "s"⟩) = none ∧
      mapLookup ([] : List (String × PageRec)) (Item.url ⟨"b", "s"⟩) = none) :=
  ⟨(canonical_dedup envW6).1 (initFlatState envW6) (FlatReach.refl _),
    (canonical_dedup envW6).2.1 aliasedState "y" "src" (by decide),
    (canonical_dedup envW6).2.2.1 [] [("a", "a")] [⟨"a", "s"⟩, ⟨"b", "s"⟩] [] ⟨"b", "s"⟩
      (by decide)⟩

/-! ### Budget overshoot of the flat worker pool -/

/-- Environment for the budget run: page budget 2, site scope, seed A,
one sitemap contributing B, and page A linking to C. Every URL is http,
same-origin and robots-allowed, and normalization is the identity. -/
def envC1 : FlatEnv :=
  { startUrl := "A", scope := "site", targetUrls := [], maxPages := 2,
    sitemapUrls := ["S"],
    fetchSitemapUrls := fun _ => ["B"],
    normalizeUrl := id, isHttpUrl := fun _ => true, sameOrigin := fun _ _ => true,
    canFetch := fun _ => true,
    visitAndExtract := fun u =>
      { status := some 200, finalUrl := none, title := u, metaDescription := "", h1 := [],
        fullText := "", links := if u = "A" then ["C"] else [], images := [],
        screenshotPath := none } }

/-- Seeded state: queue holds A (start URL) and B (from the sitemap). -/
def c1s0 : FlatState := initFlatState envC1

/-- Worker 0 dequeues A and suspends in its fetch. -/
def c1s1 : FlatState := stepStart envC1 c1s0 0

/-- Worker 1 dequeues B and suspends in its fetch. -/
def c1s2 : FlatState := stepStart envC1 c1s1 1

/-- Worker 2 finds the queue empty and terminates. -/
def c1s3 : FlatState := stepStart envC1 c1s2 2

/-- The fetch of A resolves first: worker 0 records page A, enqueues
the discovered link C (the budget check sees 1 page + 0 queued < 2,
blind to the in-flight fetch of B), dequeues C and suspends again. -/
def c1s4 : FlatState := stepComplete envC1 c1s3 0 ⟨"A", "start_url"⟩

/-- The fetch of B resolves: worker 1 records page B (the second page)
and terminates. -/
def c1s5 : FlatState := stepComplete envC1 c1s4 1 ⟨"B", "sitemap:S"⟩

/-- The fetch of C resolves: worker 0 records page C - the third page
of a run whose budget is 2 - and terminates. -/
def c1s6 : FlatState := stepComplete envC1 c1s5 0 ⟨"C", "A"⟩

/-- Claim C1: the budget is NOT a hard ceiling on total work under the
concurrent worker pool. The interleaving c1s0 ... c1s6 is a valid
execution of the three workers of `crawlSite` (each step discharges its
scheduling side condition), yet with maxPages = 2 it dequeues and
processes three items and records three PageRecords: neither the
enqueue-time budget check (pages.size + queue.length) nor the loop
condition (pages.size < maxPages) counts items currently in flight, so
a worker scheduled before its peers complete can push the total past the
budget. -/
theorem crawlSite_budget_overshoot :
    FlatReach envC1 c1s0 c1s6 ∧ c1s6.pages.length = 3 ∧ envC1.maxPages = 2 := by
  refine ⟨?_, by decide, by decide⟩
  apply FlatReach.tail _ c1s5 _ _ (FlatStep.complete c1s5 0 ⟨"C", "A"⟩ (by decide))
  apply FlatReach.tail _ c1s4 _ _ (FlatStep.complete c1s4 1 ⟨"B", "sitemap:S"⟩ (by decide))
  apply FlatReach.tail _ c1s3 _ _ (FlatStep.complete c1s3 0 ⟨"A", "start_url"⟩ (by decide))
  apply FlatReach.tail _ c1s2 _ _ (FlatStep.start c1s2 2 (by decide))
  apply FlatReach.tail _ c1s1 _ _ (FlatStep.start c1s1 1 (by decide))
  apply FlatReach.tail _ c1s0 _ _ (FlatStep.start c1s0 0 (by decide))
  exact FlatReach.refl c1s0

end Playwrighty
